import Mathlib

/-!
Shallow embedding of the session-restoration / chat-initiation core of the
support-multichannel widget (src/services/SDKService.js: ChatService at
lines 169-600 and StateManager at lines 2022-2106; src/unnamed/part_001:
StorageService; src/services/APIService.js).

JavaScript values that the code inspects dynamically (user records, room
options, API response bodies) are embedded as the `Js` type below.  External
platform functions (JSON.parse, JSON.stringify) and the network/SDK boundary
(fetch results, SDK call results) are passed in as explicit parameters, an
`Except Unit _` result standing for a call that either resolves or rejects.
Machine numbers are embedded as `Int`; `Option Int` stands for a JS number
slot whose value may also be null/undefined (NaN is conflated with that
absent case - no claim distinguishes them).
-/

/-- A JavaScript-like runtime value: null/undefined, booleans, (integer)
numbers, strings, and objects as ordered field lists. -/
inductive Js where
  | null : Js
  | bool : Bool → Js
  | num : Int → Js
  | str : String → Js
  | obj : List (String × Js) → Js

/-- JS truthiness of a value (`if (v)`): null/undefined, false, 0 and the
empty string are falsy; every object is truthy. -/
def jsTruthy : Js → Bool
  | Js.null => false
  | Js.bool b => b
  | Js.num n => !(n == 0)
  | Js.str s => !(s == "")
  | Js.obj _ => true

/-- Field lookup on an object (`v.k` / `v?.k`); any non-object yields
undefined, embedded as `none`. -/
def jsField : Js → String → Option Js
  | Js.obj fields, k => jsFieldList fields k
  | _, _ => none
where jsFieldList : List (String × Js) → String → Option Js
  | [], _ => none
  | (k', v) :: rest, k => if k' = k then some v else jsFieldList rest k

/-- JS strict equality restricted to the primitive values the code compares
(`participant.id === currentUser?.id`). Two object values are embedded as
never equal: in the source they come from distinct allocations, and `===`
on objects is reference equality. `none` stands for undefined, and
undefined === undefined holds. -/
def jsPrimEq : Option Js → Option Js → Bool
  | some Js.null, some Js.null => true
  | some (Js.bool a), some (Js.bool b) => a == b
  | some (Js.num a), some (Js.num b) => a == b
  | some (Js.str a), some (Js.str b) => a == b
  | none, none => true
  | _, _ => false

/-- The first operand if truthy, else the second (JS `a || b` over two
possibly-undefined values). -/
def jsOr (a b : Option Js) : Option Js :=
  match a with
  | some v => if jsTruthy v then some v else b
  | none => b

/-- String coercion applied by localStorage.setItem to a non-string value. -/
def jsToStorageString : Option Js → String
  | none => "undefined"
  | some Js.null => "null"
  | some (Js.bool b) => cond b "true" "false"
  | some (Js.num n) => toString n
  | some (Js.str s) => s
  | some (Js.obj _) => "[object Object]"

/-- A truthy string, or `none` for an absent/empty one (JS `s || ...`, with
`none` covering both null and the falsy empty string). -/
def truthyStr : Option String → Option String
  | some s => if s = "" then none else some s
  | none => none

/-- A truthy number slot, or `none` (null/undefined/NaN and 0 are falsy). -/
def truthyInt : Option Int → Option Int
  | some n => if n = 0 then none else some n
  | none => none

/-- JS String.prototype.trim: strip whitespace from both ends. Embedded
structurally (over the character list) so that concrete instances reduce. -/
def jsTrim (s : String) : String :=
  String.mk (((s.toList.dropWhile Char.isWhitespace).reverse.dropWhile Char.isWhitespace).reverse)

/-- Numeric value of a list of decimal digit characters. -/
def digitsVal (ds : List Char) : Nat :=
  ds.foldl (fun a c => a * 10 + (c.toNat - 48)) 0

/-- JS `parseInt(s, 10)`: skip surrounding whitespace, read an optional sign
and then the longest leading run of digits; `none` embeds the NaN result
when no digit is found. -/
def parseIntJs (s : String) : Option Int :=
  match (jsTrim s).toList with
  | [] => none
  | '-' :: rest =>
    let ds := rest.takeWhile Char.isDigit
    if ds.isEmpty then none else some (-(digitsVal ds : Int))
  | cs =>
    let body := match cs with
      | '+' :: rest => rest
      | _ => cs
    let ds := body.takeWhile Char.isDigit
    if ds.isEmpty then none else some ((digitsVal ds : Int))

/-- JS `Number(v)` restricted to the integer-valued inputs the code meets
(`Number(customer_room.room_id)`); `none` embeds NaN. -/
def jsToNumber : Js → Option Int
  | Js.null => some 0
  | Js.bool b => some (cond b 1 0)
  | Js.num n => some n
  | Js.str s =>
    if jsTrim s = "" then some 0
    else
      match (jsTrim s).toList with
      | '-' :: ds => if !ds.isEmpty && ds.all Char.isDigit then some (-(digitsVal ds : Int)) else none
      | ds => if !ds.isEmpty && ds.all Char.isDigit then some ((digitsVal ds : Int)) else none
  | Js.obj _ => none

/-- A chat message as the state layer sees it: the three identity fields read
by the dedup key plus an opaque body. -/
structure Message where
  unique_temp_id : Option String := none
  unique_id : Option String := none
  id : Option Int := none
  body : String := ""
deriving DecidableEq

/-- Resolved dedup key of a message: the StateManager uses
message.unique_temp_id, or else unique_id, or else id, each skipped when
falsy; `undef` embeds the undefined key used when all three are absent. -/
inductive MsgKey where
  | tempId : String → MsgKey
  | uniqueId : String → MsgKey
  | permId : Int → MsgKey
  | undef : MsgKey
deriving DecidableEq

/-- Dedup key of a message (StateManager.addMessage line 2053:
message.unique_temp_id, or else unique_id, or else id - first truthy). -/
def msgKey (m : Message) : MsgKey :=
  match truthyStr m.unique_temp_id with
  | some s => MsgKey.tempId s
  | none =>
    match truthyStr m.unique_id with
    | some s => MsgKey.uniqueId s
    | none =>
      match truthyInt m.id with
      | some n => MsgKey.permId n
      | none => MsgKey.undef

/-- Modelled from the spec: the dedup-resolved identity of a message is its
id if present, otherwise its temporaryId (spec section 3 and glossary).
This definition follows the spec's words, to be compared with the `msgKey`
that the source computes. -/
def specIdentity (m : Message) : Option (Int ⊕ String) :=
  match m.id with
  | some i => some (Sum.inl i)
  | none => m.unique_temp_id.map Sum.inr

/-- A room participant as updateRoomInfo walks it. -/
structure Participant where
  id : Option Js := none
  name : String := ""
  avatarUrl : Option String := none
  extras_type : Option Js := none

/-- A chat room as the orchestrator reads it: `none` fields embed absent
keys. `options` is the resolution-flag sub-structure, possibly still a
serialized string. -/
structure Room where
  options : Option Js := none
  comments : Option (List Message) := none
  last_comment_id : Option Int := none
  avatarUrl : Option String := none
  participants : Option (List Participant) := none

/-- Events emitted through the widget's event emitter, restricted to the
ones the embedded operations produce. -/
inductive Event where
  | stateChanged
  | messageAdded (m : Message)
  | unreadChanged (n : Nat)
  | chatRestored (user : Js) (roomId : Option Int)
  | chatInitiated (user : Js) (roomId : Option Int)
  | chatError
  | messageSent (m : Message)
  | messageReceived (m : Message)

/-- The StateManager's state record (constructor at lines 2025-2035).
`messages` embeds the keyed JS Map in insertion order, `messagesList` the
ordered list. `subtitle`/`avatar` are the keys updateRoomInfo adds via
setState. -/
structure SMState where
  currentUser : Option Js := none
  room : Option Room := none
  messages : List (MsgKey × Message) := []
  messagesList : List Message := []
  roomId : Option Int := none
  isOpen : Bool := false
  isLoggedIn : Bool := false
  isTyping : Bool := false
  unreadCount : Nat := 0
  subtitle : Option String := none
  avatar : Option String := none

/-- The state the StateManager constructor builds. -/
def initSMState : SMState := {}

/-- StateManager.addMessage (lines 2052-2060): keyed-map membership check,
then append to both the map and the ordered list; a colliding key is
dropped with no event and no error. -/
def addMessage (st : SMState) (message : Message) : SMState × List Event :=
  let msgId := msgKey message
  if st.messages.any (fun p => p.1 = msgId) then (st, [])
  else
    ({ st with
        messages := st.messages ++ [(msgId, message)],
        messagesList := st.messagesList ++ [message] },
      [Event.messageAdded message])

/-- StateManager.addMessages (lines 2062-2064): addMessage over each element
in order. -/
def addMessages (st : SMState) (messages : List Message) : SMState × List Event :=
  messages.foldl
    (fun acc m =>
      let r := addMessage acc.1 m
      (r.1, acc.2 ++ r.2))
    (st, [])

/-- StateManager.setMessages (lines 2066-2070): clear the map and the list,
then addMessages. -/
def setMessages (st : SMState) (messages : List Message) : SMState × List Event :=
  addMessages { st with messages := [], messagesList := [] } messages

/-- StateManager.prependMessages (lines 2072-2080): extend the keyed map
with the unseen keys only, but prepend the whole input to the ordered
list unconditionally. -/
def prependMessages (st : SMState) (messages : List Message) : SMState :=
  let newMap := messages.foldl
    (fun acc m =>
      let k := msgKey m
      if acc.any (fun p => p.1 = k) then acc else acc ++ [(k, m)])
    st.messages
  { st with messages := newMap, messagesList := messages ++ st.messagesList }

/-- StateManager.incrementUnread (lines 2082-2085). -/
def incrementUnread (st : SMState) : SMState × List Event :=
  let n := st.unreadCount + 1
  ({ st with unreadCount := n }, [Event.unreadChanged n])

/-- Recursion underlying ChatService.handleNewMessages (lines 534-546):
for each message in delivery order, addMessage, then incrementUnread when
the widget was closed at entry, then emit a received event. -/
def handleGo (isOpen : Bool) (st : SMState) : List Message → SMState × List Event
  | [] => (st, [])
  | m :: rest =>
    let r1 := addMessage st m
    let r2 := if isOpen then (r1.1, ([] : List Event)) else incrementUnread r1.1
    let r3 := handleGo isOpen r2.1 rest
    (r3.1, r1.2 ++ r2.2 ++ [Event.messageReceived m] ++ r3.2)

/-- ChatService.handleNewMessages (lines 534-546): `isOpen` is read once
before the loop. -/
def handleNewMessages (st : SMState) (messages : List Message) : SMState × List Event :=
  handleGo st.isOpen st messages

/-- The five localStorage cells StorageService owns (src/unnamed/part_001
lines 6-16); `none` is an absent key (getItem returns null). -/
structure StorageState where
  lastUserId : Option String := none
  lastRoomId : Option String := none
  lastUserData : Option String := none
  lastUserToken : Option String := none
  lastAppId : Option String := none

/-- The session object StorageService.getSession returns. -/
structure StoredSession where
  user : Js
  token : String
  roomId : Option Int

/-- StorageService.getSession (src/unnamed/part_001 lines 69-89, identical
in src/unnamed/part_000 lines 102-122): null when the stored app id is not
the caller's, or user data / token are falsy, or JSON.parse of the user
data throws (caught, returns null); the room id cell is parsed with
parseInt when truthy. `parse` embeds JSON.parse, `none` a parse error. -/
def getSession (parse : String → Option Js) (store : StorageState) (appId : String) :
    Option StoredSession :=
  match store.lastAppId with
  | none => none
  | some lastAppId =>
    if lastAppId ≠ appId then none
    else
      match truthyStr store.lastUserData, truthyStr store.lastUserToken with
      | some userData, some userToken =>
        match parse userData with
        | none => none
        | some user =>
          some
            { user := user,
              token := userToken,
              roomId :=
                match truthyStr store.lastRoomId with
                | some s => parseIntJs s
                | none => none }
      | _, _ => none

/-- StorageService.saveSession (src/unnamed/part_001 lines 55-67; part_000
lines 88-100 differs only in writing user.email without the user.id
fallback): app id, user id, serialized user and token cells are written
unconditionally, the room id cell only when roomId is truthy. `stringify`
embeds JSON.stringify; a null token is stored as the string coerced by
localStorage. -/
def saveSession (stringify : Js → String) (store : StorageState) (appId : String)
    (user : Js) (token : Option String) (roomId : Option Int) : StorageState :=
  let store1 :=
    { store with
        lastAppId := some appId,
        lastUserId := some (jsToStorageString (jsOr (jsField user "email") (jsField user "id"))),
        lastUserData := some (stringify user),
        lastUserToken := some (jsToStorageString (token.map Js.str)) }
  match truthyInt roomId with
  | some rid => { store1 with lastRoomId := some (toString rid) }
  | none => store1

/-- StorageService.clearSession (src/unnamed/part_001 lines 91-95). -/
def clearSession (_store : StorageState) : StorageState := {}

/-- True when the parsed options sub-document carries is_resolved === true
at top level or under extras (line 560). -/
def optionsResolved (options : Js) : Bool :=
  (match jsField options "is_resolved" with
   | some (Js.bool true) => true
   | _ => false) ||
  (match jsField options "extras" with
   | some extras =>
     match jsField extras "is_resolved" with
     | some (Js.bool true) => true
     | _ => false
   | none => false)

/-- ChatService.checkIfRoomResolved (lines 548-567): false when the state
has no room or the room's options are falsy; a string options value is
JSON-parsed, a parse error is caught and leaves the flag false; otherwise
the is_resolved flags of the (parsed) options decide. -/
def checkIfRoomResolved (parse : String → Option Js) (st : SMState) : Bool :=
  match st.room with
  | none => false
  | some room =>
    match room.options with
    | none => false
    | some opts =>
      if jsTruthy opts then
        match opts with
        | Js.str s =>
          match parse s with
          | none => false
          | some options => optionsResolved options
        | _ => optionsResolved opts
      else false

/-- ChatService.shouldCreateNewSession (lines 449-460): read
response.data?.is_sessional || false from the session-policy endpoint; a
rejected lookup is caught and defaults to false (not sessional). -/
def shouldCreateNewSession (policyResult : Except Unit Js) : Bool :=
  match policyResult with
  | Except.error _ => false
  | Except.ok response =>
    match jsField response "data" with
    | none => false
    | some dataV =>
      match jsField dataV "is_sessional" with
      | none => false
      | some v => jsTruthy v

/-- The apiService.initiateChat response after destructuring result.data
(lines 243-247): the identity token and customer_room.room_id before the
Number() conversion. -/
structure InitiateResponse where
  identity_token : String
  room_id : Js

/-- The external boundary of ChatService: platform JSON functions, the SDK
wrapper calls and the two backend calls, each `Except Unit _` embedding a
call that either resolves or rejects. -/
structure SdkEnv where
  parse : String → Option Js
  stringify : Js → String
  sdkLoggedIn : Bool
  getRoomResult : Except Unit (Option Room)
  loadMoreResult : Except Unit (List Message)
  policyResult : Except Unit Js
  setUserOk : Bool
  nonceResult : Except Unit String
  initiateResult : Except Unit InitiateResponse
  verifyResult : Except Unit Js
  userToken : Option String

/-- SDKService.getPreviousMessagesById (src/services/SDKService.js lines
138-155): empty for a falsy anchor id, and a rejected loadMore is caught
and yields the empty list. -/
def getPreviousMessagesById (env : SdkEnv) (lastMessageId : Option Int) : List Message :=
  match truthyInt lastMessageId with
  | none => []
  | some _ =>
    match env.loadMoreResult with
    | Except.error _ => []
    | Except.ok msgs => msgs

/-- Shallow-merge of the state's room with a fetched room
(`{...get('room'), ...room}` at line 322): spreading null copies the other
operand, and two nulls produce an empty (all-absent) object; a present
field of the fetched room overrides the old one. -/
def mergeRoom (old fetched : Option Room) : Option Room :=
  match old, fetched with
  | none, none => some {}
  | none, some r => some r
  | some o, none => some o
  | some o, some r =>
    some
      { options := r.options <|> o.options,
        comments := r.comments <|> o.comments,
        last_comment_id := r.last_comment_id <|> o.last_comment_id,
        avatarUrl := r.avatarUrl <|> o.avatarUrl,
        participants := r.participants <|> o.participants }

/-- Subtitle/avatar walk over the participants (lines 329-341): the current
user is unshifted as "You", an agent-typed participant supplies the avatar,
everyone else pushes their name. -/
def participantsWalk (currentUser : Option Js) (avatar0 : Option String)
    (ps : List Participant) : List String × Option String :=
  ps.foldl
    (fun acc p =>
      if jsPrimEq p.id (currentUser.bind (fun u => jsField u "id")) then
        ("You" :: acc.1, acc.2)
      else
        let acc2 :=
          match p.extras_type with
          | some (Js.str "agent") => (acc.1, p.avatarUrl)
          | _ => acc
        (acc2.1 ++ [p.name], acc2.2))
    ([], avatar0)

/-- ChatService.updateRoomInfo (lines 291-350): empty result when the SDK is
not authenticated or the room id is null; otherwise fetch the room, append
older messages behind a truthy last_comment_id anchor (the fetched room's
comments array is mutated by that push), merge the room into state, replace
the message list through the dedup-aware path, and derive subtitle/avatar.
A rejected room fetch propagates before any state mutation; a null fetched
room throws (reading room.avatarUrl) after the room/message state was
already written - the error value carries the state and events at the
throw point. -/
def updateRoomInfo (env : SdkEnv) (st : SMState) (roomId : Option Int) :
    Except (SMState × List Event) ((Option Room × List Message) × SMState × List Event) :=
  if env.sdkLoggedIn = false then Except.ok ((none, []), st, [])
  else
    let currentUser := st.currentUser
    match roomId with
    | none => Except.ok ((none, []), st, [])
    | some _rid =>
      match env.getRoomResult with
      | Except.error _ => Except.error (st, [])
      | Except.ok roomObj =>
        let messages0 : List Message :=
          match roomObj with
          | some r => match r.comments with | some cs => cs | none => []
          | none => []
        let messages : List Message :=
          if messages0.length > 0 then
            match truthyInt (roomObj.bind (fun r => r.last_comment_id)) with
            | some lid => messages0 ++ getPreviousMessagesById env (some lid)
            | none => messages0
          else messages0
        let roomObj2 : Option Room :=
          roomObj.map (fun r =>
            match r.comments with
            | some _ => { r with comments := some messages }
            | none => r)
        let st1 := { st with room := mergeRoom st.room roomObj2 }
        let r2 := setMessages st1 messages
        let evs := Event.stateChanged :: r2.2
        match roomObj2 with
        | none => Except.error (r2.1, evs)
        | some room =>
          let walk := participantsWalk currentUser room.avatarUrl
            (match room.participants with | some ps => ps | none => [])
          let st3 :=
            { r2.1 with
                subtitle := some (String.intercalate ", " walk.1),
                avatar := walk.2 }
          Except.ok ((some room, messages), st3, evs ++ [Event.stateChanged])

/-- Reading a property of this value throws a TypeError: true exactly when
the value is undefined (`none`) or null. A property read on any other
primitive merely yields undefined. -/
def jsAccessThrows : Option Js → Bool
  | none => true
  | some Js.null => true
  | some _ => false

/-- ChatService.tryRestoreSession (lines 370-440): read the stored session,
refuse (null) when absent or any of user/token/roomId is falsy; inside the
try block the log call at line 389 eagerly evaluates
user.user.username || user.user.id, which throws a TypeError whenever the
stored user carries no `user` sub-record (caught below, so restoration is
refused); then authenticate with the stored token, load the room, and apply
the sessional decision; any throw is caught and yields null, with whatever
state mutations already happened left in place. -/
def tryRestoreSession (env : SdkEnv) (store : StorageState) (st : SMState) (appId : String) :
    Option (Js × Option Int) × SMState × List Event :=
  match getSession env.parse store appId with
  | none => (none, st, [])
  | some session =>
    let user := session.user
    let token := session.token
    let roomId := session.roomId
    if jsTruthy user = false ∨ token = "" ∨ truthyInt roomId = none then (none, st, [])
    else
      if jsAccessThrows (jsField user "user") then (none, st, [])
      else
      if env.setUserOk = false then (none, st, [])
      else
        match updateRoomInfo env st roomId with
        | Except.error (st', evs) => (none, st', evs)
        | Except.ok ((roomOpt, _messages), st', evs) =>
          match roomOpt with
          | none => (none, st', evs)
          | some _room =>
            let isResolved := checkIfRoomResolved env.parse st'
            if isResolved && shouldCreateNewSession env.policyResult then (none, st', evs)
            else
              let st2 := { st' with currentUser := some user, roomId := roomId, isLoggedIn := true }
              (some (user, roomId), st2,
                evs ++ [Event.stateChanged, Event.chatRestored user roomId])

/-- Outcome of ChatService.sendMessage. -/
inductive SendOutcome where
  | noActiveRoom
  | emptyMessage
  | sendFailed
  | sent (m : Message)
deriving DecidableEq

/-- ChatService.sendMessage (lines 494-516): the no-active-room check on the
state's roomId comes first, then the blank-after-trim check; only then is
the transport send awaited, the result inserted through addMessage and a
sent event emitted. The returned Bool records whether the transport send
was invoked. -/
def sendMessage (st : SMState) (text : String) (sendResult : Except Unit Message) :
    SendOutcome × SMState × List Event × Bool :=
  match truthyInt st.roomId with
  | none => (SendOutcome.noActiveRoom, st, [], false)
  | some _rid =>
    if text = "" ∨ jsTrim text = "" then (SendOutcome.emptyMessage, st, [], false)
    else
      match sendResult with
      | Except.error _ => (SendOutcome.sendFailed, st, [], true)
      | Except.ok message =>
        let r := addMessage st message
        (SendOutcome.sent message, r.1, r.2 ++ [Event.messageSent message], true)

/-- The userConfig argument of initiateChat. -/
structure UserConfig where
  userId : String
  displayName : String
  avatarUrl : Option String := none
  extras : Option Js := none
  userProperties : Option Js := none

/-- The request body built at lines 226-239: fixed keys, then channel_id
appended only when channelId != null. -/
def buildInitiatePayload (appId : String) (channelId : Option String) (cfg : UserConfig)
    (nonce : String) : List (String × Js) :=
  let base : List (String × Js) :=
    [("app_id", Js.str appId),
     ("user_id", Js.str cfg.userId),
     ("name", Js.str cfg.displayName),
     ("avatar", match cfg.avatarUrl with | some s => Js.str s | none => Js.null),
     ("sdk_user_extras", match cfg.extras with
        | some v => if jsTruthy v then v else Js.obj []
        | none => Js.obj []),
     ("user_properties", match cfg.userProperties with
        | some v => if jsTruthy v then v else Js.obj []
        | none => Js.obj []),
     ("nonce", Js.str nonce)]
  match channelId with
  | some cid => base ++ [("channel_id", Js.str cid)]
  | none => base

/-- The calls of interest initiateChat makes on its fresh path, recorded as
they happen: whether a nonce was requested, each payload handed to the
backend create-session call, and each tuple handed to saveSession. -/
structure FreshTrace where
  nonceFetched : Bool := false
  initiatePayloads : List (List (String × Js)) := []
  sessionsSaved : List (String × Js × Option String × Option Int) := []

/-- Result of an initiateChat run. -/
inductive ChatOutcome where
  | ok (user : Js)
  | restoreError
  | stepError

/-- Everything an initiateChat run produces or leaves behind. -/
structure InitRun where
  outcome : ChatOutcome
  store : StorageState
  st : SMState
  events : List Event
  fresh : FreshTrace

/-- The truthiness test at line 195: an existing session whose user, token
and roomId are all truthy. -/
def sessionUsable : Option StoredSession → Bool
  | none => false
  | some s => jsTruthy s.user && !(s.token == "") && (truthyInt s.roomId).isSome

/-- ChatService.initiateChat (lines 188-284). With a usable stored tuple it
only attempts restoration: success re-emits chat:restored and returns the
user; failure emits chat:error (once at the throw site, once in the outer
catch) and rejects without any fresh-initiation step. Otherwise fresh
initiation: nonce, backend create-session, Number() on the room id,
verify-then-authenticate, persist the tuple, mark the state logged in, and
only then hydrate the room; a throw after the save is caught, emits
chat:error and rejects with the tuple and state left in place. -/
def initiateChat (env : SdkEnv) (store : StorageState) (st : SMState)
    (appId : String) (channelId : Option String) (cfg : UserConfig) : InitRun :=
  let existingSession := getSession env.parse store appId
  if sessionUsable existingSession then
    match tryRestoreSession env store st appId with
    | (some (u, rid), st', evs) =>
      { outcome := ChatOutcome.ok u, store := store, st := st',
        events := evs ++ [Event.chatRestored u rid], fresh := {} }
    | (none, st', evs) =>
      { outcome := ChatOutcome.restoreError, store := store, st := st',
        events := evs ++ [Event.chatError, Event.chatError], fresh := {} }
  else
    match env.nonceResult with
    | Except.error _ =>
      { outcome := ChatOutcome.stepError, store := store, st := st,
        events := [Event.chatError], fresh := { nonceFetched := true } }
    | Except.ok nonce =>
      let data := buildInitiatePayload appId channelId cfg nonce
      match env.initiateResult with
      | Except.error _ =>
        { outcome := ChatOutcome.stepError, store := store, st := st,
          events := [Event.chatError],
          fresh := { nonceFetched := true, initiatePayloads := [data] } }
      | Except.ok result =>
        let roomId := jsToNumber result.room_id
        match env.verifyResult with
        | Except.error _ =>
          { outcome := ChatOutcome.stepError, store := store, st := st,
            events := [Event.chatError],
            fresh := { nonceFetched := true, initiatePayloads := [data] } }
        | Except.ok userData =>
          if env.setUserOk = false then
            { outcome := ChatOutcome.stepError, store := store, st := st,
              events := [Event.chatError],
              fresh := { nonceFetched := true, initiatePayloads := [data] } }
          else
            let userToken := env.userToken
            let store1 := saveSession env.stringify store appId userData userToken roomId
            let fresh1 : FreshTrace :=
              { nonceFetched := true, initiatePayloads := [data],
                sessionsSaved := [(appId, userData, userToken, roomId)] }
            let st1 := { st with currentUser := some userData, roomId := roomId, isLoggedIn := true }
            match updateRoomInfo env st1 roomId with
            | Except.error (st2, evs2) =>
              { outcome := ChatOutcome.stepError, store := store1, st := st2,
                events := Event.stateChanged :: (evs2 ++ [Event.chatError]), fresh := fresh1 }
            | Except.ok (_, st2, evs2) =>
              { outcome := ChatOutcome.ok userData, store := store1, st := st2,
                events := Event.stateChanged :: (evs2 ++ [Event.chatInitiated userData roomId]),
                fresh := fresh1 }

/-- Key lookup in the request payload (what JSON serialization of the built
object exposes). -/
def keyLookup (k : String) : List (String × Js) → Option Js
  | [] => none
  | (k', v) :: rest => if k' = k then some v else keyLookup k rest

/-- How often a key occurs in the request payload. -/
def keyCount (k : String) (l : List (String × Js)) : Nat :=
  (l.map Prod.fst).count k

/-- One State Store insert operation of the dedup-preserving family
(addMessage / addMessages / setMessages). -/
inductive SMOp where
  | add (m : Message)
  | adds (ms : List Message)
  | sets (ms : List Message)

/-- Apply one insert operation to the state (events dropped). -/
def applySMOp (st : SMState) : SMOp → SMState
  | SMOp.add m => (addMessage st m).1
  | SMOp.adds ms => (addMessages st ms).1
  | SMOp.sets ms => (setMessages st ms).1

/-- Apply a sequence of insert operations in order. -/
def runSMOps (st : SMState) (ops : List SMOp) : SMState :=
  ops.foldl applySMOp st

/-- Membership of a dedup key in the State Store's keyed map
(`this.state.messages.has(msgId)`). -/
def keyInMap (st : SMState) (k : MsgKey) : Bool :=
  st.messages.any (fun p => p.1 = k)

/-- Internal coherence of the State Store: the ordered list carries
pairwise-distinct dedup keys and every listed message's key is in the
keyed map. -/
def Coherent (st : SMState) : Prop :=
  (st.messagesList.map msgKey).Nodup ∧
  ∀ m ∈ st.messagesList, keyInMap st (msgKey m) = true

/-- The messages carried by message:received events, in emission order. -/
def receivedOf (evs : List Event) : List Message :=
  evs.filterMap (fun e =>
    match e with
    | Event.messageReceived m => some m
    | _ => none)

/-- The options value checkIfRoomResolved ends up inspecting: none when the
room options are absent or falsy or a string that fails to parse; otherwise
the (parsed) options document. -/
def effectiveOptions (parse : String → Option Js) (o : Option Js) : Option Js :=
  match o with
  | none => none
  | some v =>
    if jsTruthy v then
      match v with
      | Js.str s => parse s
      | _ => some v
    else none

/-- Concrete JSON.parse stand-in for the closed instances below: it knows the
one serialized user blob the fixture store holds. -/
def parseFix : String → Option Js :=
  fun s =>
    if s = "USER" then some (Js.obj [("user", Js.obj [("id", Js.str "u1")])]) else none

/-- Fixture user record, carrying the `user` sub-record the restoration log
line reads. -/
def userFix : Js := Js.obj [("user", Js.obj [("id", Js.str "u1")])]

/-- Fixture store holding a fully populated session tuple for app "x". -/
def storeFix : StorageState :=
  { lastAppId := some "x", lastUserData := some "USER",
    lastUserToken := some "t", lastRoomId := some "42" }

/-- Fixture session tuple as getSession returns it from storeFix. -/
def sessFix : StoredSession :=
  { user := userFix, token := "t", roomId := some 42 }

/-- Fixture room without a resolution flag. -/
def roomFix : Room := {}

/-- Fixture environment: authenticated SDK, room 42 fetch succeeds with an
unresolved room, every other boundary call rejects. -/
def envFix : SdkEnv :=
  { parse := parseFix, stringify := fun _ => "USER", sdkLoggedIn := true,
    getRoomResult := Except.ok (some roomFix), loadMoreResult := Except.ok [],
    policyResult := Except.error (), setUserOk := true, nonceResult := Except.error (),
    initiateResult := Except.error (), verifyResult := Except.error (), userToken := none }

/-- Fixture environment whose transport authentication rejects, making any
restoration attempt fail. -/
def envAuthFail : SdkEnv := { envFix with setUserOk := false }

/-- Fixture environment for a fresh initiation that reaches the backend call:
nonce resolves, later steps reject. -/
def envFreshFix : SdkEnv := { envFix with nonceResult := Except.ok "NONCE" }

/-- Fixture environment driving the fresh path to the post-save room-fetch
failure: every step up to saveSession succeeds, then getRoom rejects. -/
def envHydrateFail : SdkEnv :=
  { envFix with
      nonceResult := Except.ok "NONCE",
      initiateResult := Except.ok { identity_token := "IT", room_id := Js.num 9 },
      verifyResult := Except.ok userFix,
      getRoomResult := Except.error (),
      userToken := some "tok" }

/-- Fixture user config. -/
def cfgFix : UserConfig := { userId := "cust-1", displayName := "Cust" }

/-- Fixture message carrying only a permanent id. -/
def msgFix : Message := { id := some 1 }

/-- A truthy number slot determines its underlying value. -/
theorem truthyInt_eq_some {o : Option Int} {n : Int} (h : truthyInt o = some n) :
    o = some n := by
  cases o with
  | none => exact absurd h (by simp [truthyInt])
  | some m =>
    simp only [truthyInt] at h
    by_cases hm : m = 0
    · rw [if_pos hm] at h
      exact absurd h (by simp)
    · rw [if_neg hm] at h
      exact h

/-- C3: for every applicationId, getSession returns null whenever the stored
application id is not the caller's, so a session tuple persisted for one
application (its user, token and room id) is never returned when queried for
a different application. -/
theorem getSession_no_cross_tenant (parse : String → Option Js) (store : StorageState)
    (appId : String) (h : store.lastAppId ≠ some appId) :
    getSession parse store appId = none := by
  unfold getSession
  cases hA : store.lastAppId with
  | none => rfl
  | some s =>
    have hs : s ≠ appId := by
      intro he
      exact h (by rw [hA, he])
    simp [hs]

/-- Closed instance of getSession_no_cross_tenant: a tuple stored for app
"other" is not returned for app "x". -/
theorem getSession_no_cross_tenant_witness :
    getSession parseFix { storeFix with lastAppId := some "other" } "x" = none :=
  getSession_no_cross_tenant parseFix { storeFix with lastAppId := some "other" } "x"
    (by simp)

/-- C9: saveSession writes the app-id, user-id, user-data and token cells
unconditionally but the room-id cell only for a truthy roomId; with a null
(or 0) roomId the stored room id cell is left unchanged, so a subsequent
getSession for the same app returns the new user and token paired with the
room id parsed from the old cell. -/
theorem saveSession_room_frame (parse : String → Option Js) (stringify : Js → String)
    (store : StorageState) (appId : String) (user : Js) (token : Option String) :
    (∀ roomId,
      (saveSession stringify store appId user token roomId).lastAppId = some appId ∧
      (saveSession stringify store appId user token roomId).lastUserId =
        some (jsToStorageString (jsOr (jsField user "email") (jsField user "id"))) ∧
      (saveSession stringify store appId user token roomId).lastUserData =
        some (stringify user) ∧
      (saveSession stringify store appId user token roomId).lastUserToken =
        some (jsToStorageString (token.map Js.str))) ∧
    (∀ roomId, truthyInt roomId = none →
      (saveSession stringify store appId user token roomId).lastRoomId = store.lastRoomId) ∧
    (∀ n : Int, n ≠ 0 →
      (saveSession stringify store appId user token (some n)).lastRoomId =
        some (toString n)) ∧
    (∀ t : String, token = some t → t ≠ "" → stringify user ≠ "" →
      parse (stringify user) = some user →
      getSession parse (saveSession stringify store appId user token none) appId =
        some { user := user, token := t,
               roomId :=
                 match truthyStr store.lastRoomId with
                 | some s => parseIntJs s
                 | none => none }) := by
  refine ⟨?_, ?_, ?_, ?_⟩
  · intro roomId
    cases h : truthyInt roomId <;> simp [saveSession, h]
  · intro roomId h
    simp [saveSession, h]
  · intro n hn
    simp [saveSession, truthyInt, hn]
  · intro t ht hne hsu hp
    subst ht
    simp [saveSession, getSession, truthyInt, truthyStr, jsToStorageString, hne, hsu, hp]

/-- Closed instance of saveSession_room_frame: saving with a null roomId and
reading back pairs the new user and token with the old room-id cell. -/
theorem saveSession_room_frame_witness :
    getSession parseFix (saveSession (fun _ => "USER") storeFix "x" userFix (some "t2") none) "x" =
      some { user := userFix, token := "t2",
             roomId :=
               match truthyStr storeFix.lastRoomId with
               | some s => parseIntJs s
               | none => none } :=
  (saveSession_room_frame parseFix (fun _ => "USER") storeFix "x" userFix (some "t2")).2.2.2
    "t2" rfl (by decide) (by decide) (by rfl)

/-- Normal form of checkIfRoomResolved in terms of the effective options
value. -/
theorem checkIfRoomResolved_eq (parse : String → Option Js) (st : SMState) :
    checkIfRoomResolved parse st =
      match st.room with
      | none => false
      | some r =>
        match effectiveOptions parse r.options with
        | some v => optionsResolved v
        | none => false := by
  unfold checkIfRoomResolved effectiveOptions
  obtain ⟨cu, rm, ms, ml, rid, io, il, it, uc, sub, av⟩ := st
  cases rm with
  | none => rfl
  | some r =>
    obtain ⟨opts, cms, lci, au, ps⟩ := r
    cases opts with
    | none => rfl
    | some v =>
      by_cases h : jsTruthy v = true
      · cases v with
        | str s => cases hp : parse s <;> simp [h, hp]
        | null => simp [jsTruthy] at h
        | bool b => simp [h]
        | num i => simp [h]
        | obj fs => simp [h]
      · have h' : jsTruthy v = false := by simpa using h
        simp [h']

/-- C6: checkIfRoomResolved recovers locally from malformed data (the
embedding is a total function, so nothing is thrown): it is false when the
state holds no room, when the room's options sub-structure is absent, and
when a serialized options string fails to parse; and it is true exactly when
the effective (parsed) options document carries is_resolved === true at top
level or under extras. -/
theorem checkIfRoomResolved_recovers (parse : String → Option Js) (st : SMState) :
    (st.room = none → checkIfRoomResolved parse st = false) ∧
    (∀ r, st.room = some r → r.options = none → checkIfRoomResolved parse st = false) ∧
    (∀ r s, st.room = some r → r.options = some (Js.str s) → parse s = none →
      checkIfRoomResolved parse st = false) ∧
    (checkIfRoomResolved parse st = true ↔
      ∃ r v, st.room = some r ∧ effectiveOptions parse r.options = some v ∧
        optionsResolved v = true) := by
  refine ⟨?_, ?_, ?_, ?_⟩
  · intro h
    rw [checkIfRoomResolved_eq, h]
  · intro r hr ho
    rw [checkIfRoomResolved_eq, hr]
    simp [effectiveOptions, ho]
  · intro r s hr ho hp
    rw [checkIfRoomResolved_eq, hr]
    by_cases hs : s = ""
    · simp [effectiveOptions, ho, hs, jsTruthy]
    · simp [effectiveOptions, ho, jsTruthy, hs, hp]
  · rw [checkIfRoomResolved_eq]
    cases hr : st.room with
    | none => simp
    | some r =>
      cases he : effectiveOptions parse r.options with
      | none => simp [he]
      | some v => simp [he]

/-- Closed instance of checkIfRoomResolved_recovers: with no room in state the
flag is false. -/
theorem checkIfRoomResolved_recovers_witness :
    checkIfRoomResolved parseFix initSMState = false :=
  (checkIfRoomResolved_recovers parseFix initSMState).1 rfl

/-- C5 counterexample: with no active room, a blank message does not fail with
the empty-message error - the no-active-room check runs first, so
sendMessage("") yields the no-active-room outcome. -/
theorem sendMessage_blank_cex :
    (sendMessage initSMState "" (Except.error ())).1 = SendOutcome.noActiveRoom ∧
    SendOutcome.noActiveRoom ≠ SendOutcome.emptyMessage := by
  exact ⟨rfl, by decide⟩

/-- C5 amended: the no-active-room check precedes the blank check, so
sendMessage fails with the no-active-room error whenever the state's room id
is falsy (even for blank text); with an active room it fails with the
empty-message error for text blank after trimming, without invoking the
transport send; otherwise it delegates to the transport send, inserts the
returned message through the dedup-aware path and emits a sent event. -/
theorem sendMessage_amended (st : SMState) (text : String) (sendResult : Except Unit Message) :
    (truthyInt st.roomId = none →
      sendMessage st text sendResult = (SendOutcome.noActiveRoom, st, [], false)) ∧
    (∀ rid, truthyInt st.roomId = some rid → jsTrim text = "" →
      sendMessage st text sendResult = (SendOutcome.emptyMessage, st, [], false)) ∧
    (∀ rid m, truthyInt st.roomId = some rid → jsTrim text ≠ "" →
      sendResult = Except.ok m →
      sendMessage st text sendResult =
        (SendOutcome.sent m, (addMessage st m).1,
          (addMessage st m).2 ++ [Event.messageSent m], true)) := by
  refine ⟨?_, ?_, ?_⟩
  · intro h
    simp [sendMessage, h]
  · intro rid h1 h2
    simp [sendMessage, h1, h2]
  · intro rid m h1 h2 h3
    have hne : text ≠ "" := by
      intro he
      exact h2 (by rw [he]; rfl)
    simp [sendMessage, h1, h2, h3, hne]

/-- Closed instance of sendMessage_amended: with an active room, a
whitespace-only message fails with the empty-message outcome and does not
invoke the transport. -/
theorem sendMessage_amended_witness :
    sendMessage { initSMState with roomId := some 7 } "   " (Except.error ()) =
      (SendOutcome.emptyMessage, { initSMState with roomId := some 7 }, [], false) :=
  (sendMessage_amended { initSMState with roomId := some 7 } "   " (Except.error ())).2.1
    7 (by decide) (by decide)

/-- addMessage on a key already in the map leaves the state unchanged. -/
theorem addMessage_skip (st : SMState) (m : Message)
    (hk : (st.messages.any (fun p => p.1 = msgKey m)) = true) :
    addMessage st m = (st, []) := by
  simp [addMessage, hk]

/-- addMessage on a fresh key appends to both the map and the list. -/
theorem addMessage_push (st : SMState) (m : Message)
    (hk : ¬ (st.messages.any (fun p => p.1 = msgKey m)) = true) :
    addMessage st m =
      ({ st with
          messages := st.messages ++ [(msgKey m, m)],
          messagesList := st.messagesList ++ [m] },
        [Event.messageAdded m]) := by
  simp [addMessage, hk]

/-- addMessage preserves State Store coherence. -/
theorem coherent_addMessage (st : SMState) (m : Message) (h : Coherent st) :
    Coherent (addMessage st m).1 := by
  by_cases hk : (st.messages.any (fun p => p.1 = msgKey m)) = true
  · rw [addMessage_skip st m hk]
    exact h
  · rw [addMessage_push st m hk]
    constructor
    · have hnotin : msgKey m ∉ st.messagesList.map msgKey := by
        intro hmem
        rcases List.mem_map.mp hmem with ⟨m', hm', hkey⟩
        have hin := h.2 m' hm'
        unfold keyInMap at hin
        rw [hkey] at hin
        exact hk hin
      simp only [List.map_append, List.map_cons, List.map_nil]
      rw [List.nodup_append]
      exact ⟨h.1, List.nodup_singleton _, by
        intro a ha hb
        simp only [List.mem_singleton] at hb
        exact hnotin (hb ▸ ha)⟩
    · intro m' hm'
      unfold keyInMap
      simp only [List.any_append]
      rcases List.mem_append.mp hm' with hml | hmr
      · have hin := h.2 m' hml
        unfold keyInMap at hin
        simp [hin]
      · simp only [List.mem_singleton] at hmr
        subst hmr
        simp

/-- The state component of addMessages is a fold of addMessage states. -/
theorem addMessages_fst (st : SMState) (ms : List Message) :
    (addMessages st ms).1 = ms.foldl (fun s m => (addMessage s m).1) st := by
  suffices h : ∀ (ms : List Message) (st : SMState) (evs : List Event),
      (ms.foldl (fun acc m => ((addMessage acc.1 m).1, acc.2 ++ (addMessage acc.1 m).2))
        (st, evs)).1 = ms.foldl (fun s m => (addMessage s m).1) st by
    exact h ms st []
  intro ms
  induction ms with
  | nil => intro st evs; rfl
  | cons m rest ih =>
    intro st evs
    simp only [List.foldl_cons]
    exact ih _ _

/-- A fold of addMessage states preserves coherence. -/
theorem coherent_addMessage_foldl (ms : List Message) :
    ∀ st : SMState, Coherent st →
      Coherent (ms.foldl (fun s m => (addMessage s m).1) st) := by
  induction ms with
  | nil => intro st h; exact h
  | cons m rest ih =>
    intro st h
    simp only [List.foldl_cons]
    exact ih _ (coherent_addMessage st m h)

/-- setMessages always yields a coherent state. -/
theorem coherent_setMessages (st : SMState) (ms : List Message) :
    Coherent (setMessages st ms).1 := by
  unfold setMessages
  rw [addMessages_fst]
  apply coherent_addMessage_foldl
  constructor
  · simp
  · intro m hm
    exact absurd hm (List.not_mem_nil m)

/-- Every insert operation of the dedup-preserving family preserves
coherence. -/
theorem coherent_applySMOp (st : SMState) (op : SMOp) (h : Coherent st) :
    Coherent (applySMOp st op) := by
  cases op with
  | add m => exact coherent_addMessage st m h
  | adds ms =>
    show Coherent (addMessages st ms).1
    rw [addMessages_fst]
    exact coherent_addMessage_foldl ms st h
  | sets ms => exact coherent_setMessages st ms

/-- Any operation sequence from a coherent state stays coherent. -/
theorem coherent_runSMOps (ops : List SMOp) :
    ∀ st : SMState, Coherent st → Coherent (runSMOps st ops) := by
  induction ops with
  | nil => intro st h; exact h
  | cons op rest ih =>
    intro st h
    simp only [runSMOps, List.foldl_cons]
    exact ih _ (coherent_applySMOp st op h)

/-- C4 counterexample: (a) addMessage of a message with permanent id 1, then
prependMessages of the same message, leaves the ordered list holding the
message twice - two entries with the same dedup-resolved identity, so the
colliding insert was not dropped from the list; (b) independently, two
inserts sharing permanent id 1 under distinct temporary ids are both kept
(the code keys on the temporary id first), again two entries with the same
spec identity (id if present else temporaryId). -/
theorem stateStore_dedup_cex :
    ((prependMessages (addMessage initSMState msgFix).1 [msgFix]).messagesList =
        [msgFix, msgFix] ∧
      ¬ ((prependMessages (addMessage initSMState msgFix).1 [msgFix]).messagesList.map
            specIdentity).Nodup) ∧
    ((addMessages initSMState
        [{ unique_temp_id := some "a", id := some 1 },
         { unique_temp_id := some "b", id := some 1 }]).1.messagesList.map specIdentity =
        [some (Sum.inl 1), some (Sum.inl 1)] ∧
      ¬ ((addMessages initSMState
        [{ unique_temp_id := some "a", id := some 1 },
         { unique_temp_id := some "b", id := some 1 }]).1.messagesList.map
            specIdentity).Nodup) := by
  decide

/-- C4 amended: after any sequence of addMessage, addMessages and setMessages
operations from the initial state, the ordered message list carries pairwise
distinct dedup keys (the code's key: temporaryId if present, else uniqueId,
else id), and an insert whose key is already in the keyed map is silently
dropped - the state is unchanged and no event or error is produced.
prependMessages is excluded: it deduplicates only the keyed map and prepends
its whole input to the ordered list, so it can introduce duplicates. -/
theorem stateStore_dedup_amended (ops : List SMOp) :
    ((runSMOps initSMState ops).messagesList.map msgKey).Nodup ∧
    (∀ m : Message, keyInMap (runSMOps initSMState ops) (msgKey m) = true →
      addMessage (runSMOps initSMState ops) m = (runSMOps initSMState ops, [])) := by
  have hc : Coherent (runSMOps initSMState ops) := by
    apply coherent_runSMOps
    constructor
    · simp [initSMState]
    · intro m hm
      exact absurd hm (List.not_mem_nil m)
  refine ⟨hc.1, ?_⟩
  intro m hm
  exact addMessage_skip _ m hm

/-- receivedOf distributes over event-list append. -/
theorem receivedOf_append (l1 l2 : List Event) :
    receivedOf (l1 ++ l2) = receivedOf l1 ++ receivedOf l2 := by
  simp [receivedOf]

/-- addMessage never changes the unread counter. -/
theorem addMessage_unread (st : SMState) (m : Message) :
    (addMessage st m).1.unreadCount = st.unreadCount := by
  by_cases hk : (st.messages.any (fun p => p.1 = msgKey m)) = true
  · rw [addMessage_skip st m hk]
  · rw [addMessage_push st m hk]

/-- addMessage emits no received event. -/
theorem receivedOf_addMessage (st : SMState) (m : Message) :
    receivedOf (addMessage st m).2 = [] := by
  by_cases hk : (st.messages.any (fun p => p.1 = msgKey m)) = true
  · rw [addMessage_skip st m hk]
    rfl
  · rw [addMessage_push st m hk]
    simp [receivedOf]

/-- With the widget closed, the handler loop adds the batch size to the
unread counter and emits the received events in delivery order. -/
theorem handleGo_closed_spec (messages : List Message) :
    ∀ st : SMState,
      (handleGo false st messages).1.unreadCount = st.unreadCount + messages.length ∧
      receivedOf (handleGo false st messages).2 = messages := by
  induction messages with
  | nil => intro st; simp [handleGo, receivedOf]
  | cons m rest ih =>
    intro st
    have e1 : handleGo false st (m :: rest) =
        ((handleGo false (incrementUnread (addMessage st m).1).1 rest).1,
          (addMessage st m).2 ++ (incrementUnread (addMessage st m).1).2 ++
            [Event.messageReceived m] ++
            (handleGo false (incrementUnread (addMessage st m).1).1 rest).2) := by
      simp [handleGo]
    rw [e1]
    constructor
    · have h1 := (ih (incrementUnread (addMessage st m).1).1).1
      simp only [h1]
      have h2 : (incrementUnread (addMessage st m).1).1.unreadCount = st.unreadCount + 1 := by
        simp [incrementUnread, addMessage_unread]
      rw [h2]
      simp only [List.length_cons]
      omega
    · rw [receivedOf_append, receivedOf_append, receivedOf_append, receivedOf_addMessage]
      have h2 : receivedOf (incrementUnread (addMessage st m).1).2 = [] := by
        simp [incrementUnread, receivedOf]
      rw [h2, (ih _).2]
      simp [receivedOf]

/-- C10: while the widget is not open, handleNewMessages increases the unread
counter by exactly the number of delivered messages and emits one received
event per input message in delivery order - also for messages whose dedup
key already exists and whose insert is therefore dropped. -/
theorem handleNewMessages_closed_counts (st : SMState) (messages : List Message)
    (h : st.isOpen = false) :
    (handleNewMessages st messages).1.unreadCount = st.unreadCount + messages.length ∧
    receivedOf (handleNewMessages st messages).2 = messages := by
  unfold handleNewMessages
  rw [h]
  exact handleGo_closed_spec messages st

/-- Closed instance of handleNewMessages_closed_counts: delivering the same
message twice to a closed widget counts two unread and two received events
although the second insert is dropped. -/
theorem handleNewMessages_closed_counts_witness :
    (handleNewMessages initSMState [msgFix, msgFix]).1.unreadCount =
      initSMState.unreadCount + ([msgFix, msgFix] : List Message).length ∧
    receivedOf (handleNewMessages initSMState [msgFix, msgFix]).2 = [msgFix, msgFix] :=
  handleNewMessages_closed_counts initSMState [msgFix, msgFix] rfl

/-- C7: on the fresh-initiation path the backend create-session call receives
exactly the payload built at lines 226-239: with no channelId the payload
carries no channel_id key at all, and with a channelId it carries exactly
one channel_id key bound to that exact value. -/
theorem initiateChat_channel_key (env : SdkEnv) (store : StorageState) (st : SMState)
    (appId : String) (channelId : Option String) (cfg : UserConfig) (nonce : String)
    (hNoSess : getSession env.parse store appId = none)
    (hNonce : env.nonceResult = Except.ok nonce) :
    (initiateChat env store st appId channelId cfg).fresh.initiatePayloads =
      [buildInitiatePayload appId channelId cfg nonce] ∧
    keyCount "channel_id" (buildInitiatePayload appId channelId cfg nonce) =
      (match channelId with | some _ => 1 | none => 0) ∧
    keyLookup "channel_id" (buildInitiatePayload appId channelId cfg nonce) =
      channelId.map Js.str := by
  constructor
  · simp only [initiateChat, hNoSess, hNonce, sessionUsable]
    simp only [Bool.false_eq_true, if_false]
    cases hi : env.initiateResult with
    | error e => simp
    | ok result =>
      cases hv : env.verifyResult with
      | error e => simp
      | ok userData =>
        dsimp only
        by_cases hs : env.setUserOk = false
        · simp [hs]
        · rw [if_neg hs]
          split <;> simp
  · cases channelId with
    | none => exact ⟨rfl, rfl⟩
    | some cid => exact ⟨rfl, rfl⟩

/-- Closed instance of initiateChat_channel_key at channelId = none: the
recorded backend payload is the built one and carries no channel_id key. -/
theorem initiateChat_channel_key_witness :
    (initiateChat envFreshFix ({} : StorageState) initSMState "x" none cfgFix).fresh.initiatePayloads =
      [buildInitiatePayload "x" none cfgFix "NONCE"] ∧
    keyCount "channel_id" (buildInitiatePayload "x" none cfgFix "NONCE") =
      (match (none : Option String) with | some _ => 1 | none => 0) ∧
    keyLookup "channel_id" (buildInitiatePayload "x" none cfgFix "NONCE") =
      (none : Option String).map Js.str :=
  initiateChat_channel_key envFreshFix {} initSMState "x" none cfgFix "NONCE" rfl rfl

/-- C2: when the Session Store holds a usable tuple (user, token and roomId
all truthy) and the restoration attempt returns null, initiateChat rejects
with the restore error and performs no fresh-initiation step: no nonce is
fetched, no backend create-session call is made, no tuple is saved, and the
Session Store is left untouched. -/
theorem initiateChat_restore_failure (env : SdkEnv) (store : StorageState) (st : SMState)
    (appId : String) (channelId : Option String) (cfg : UserConfig)
    (hUsable : sessionUsable (getSession env.parse store appId) = true)
    (hRestore : (tryRestoreSession env store st appId).1 = none) :
    (initiateChat env store st appId channelId cfg).outcome = ChatOutcome.restoreError ∧
    (initiateChat env store st appId channelId cfg).store = store ∧
    (initiateChat env store st appId channelId cfg).fresh.nonceFetched = false ∧
    (initiateChat env store st appId channelId cfg).fresh.initiatePayloads = [] ∧
    (initiateChat env store st appId channelId cfg).fresh.sessionsSaved = [] := by
  rcases ht : tryRestoreSession env store st appId with ⟨res, st', evs⟩
  rw [ht] at hRestore
  dsimp only at hRestore
  subst hRestore
  simp [initiateChat, hUsable, ht]

/-- Closed instance of initiateChat_restore_failure: with the fixture tuple
and a transport whose authentication rejects, initiateChat rejects with the
restore error and records no fresh-path call. -/
theorem initiateChat_restore_failure_witness :
    (initiateChat envAuthFail storeFix initSMState "x" none cfgFix).outcome =
      ChatOutcome.restoreError ∧
    (initiateChat envAuthFail storeFix initSMState "x" none cfgFix).store = storeFix ∧
    (initiateChat envAuthFail storeFix initSMState "x" none cfgFix).fresh.nonceFetched = false ∧
    (initiateChat envAuthFail storeFix initSMState "x" none cfgFix).fresh.initiatePayloads = [] ∧
    (initiateChat envAuthFail storeFix initSMState "x" none cfgFix).fresh.sessionsSaved = [] :=
  initiateChat_restore_failure envAuthFail storeFix initSMState "x" none cfgFix rfl rfl

/-- If the SDK is authenticated and the room fetch rejects, updateRoomInfo
propagates the rejection before mutating any state. -/
theorem updateRoomInfo_getRoom_error (env : SdkEnv) (st : SMState) (rid : Int)
    (hLogged : env.sdkLoggedIn = true) (hErr : env.getRoomResult = Except.error ()) :
    updateRoomInfo env st (some rid) = Except.error (st, []) := by
  simp [updateRoomInfo, hLogged, hErr]

/-- C8: fresh initiation is not atomic - the tuple is saved and the state
marked logged-in before hydration, so when the post-save room fetch rejects,
initiateChat rejects with the step error while the saved tuple (app id,
serialized user, token) and the logged-in state (current user, room id)
remain in place. -/
theorem initiateChat_no_rollback (env : SdkEnv) (store : StorageState) (st : SMState)
    (appId : String) (channelId : Option String) (cfg : UserConfig)
    (nonce : String) (result : InitiateResponse) (userData : Js) (rid : Int)
    (hNoSess : getSession env.parse store appId = none)
    (hNonce : env.nonceResult = Except.ok nonce)
    (hApi : env.initiateResult = Except.ok result)
    (hNum : jsToNumber result.room_id = some rid)
    (hVerify : env.verifyResult = Except.ok userData)
    (hSetUser : env.setUserOk = true)
    (hLogged : env.sdkLoggedIn = true)
    (hRoomErr : env.getRoomResult = Except.error ()) :
    (initiateChat env store st appId channelId cfg).outcome = ChatOutcome.stepError ∧
    (initiateChat env store st appId channelId cfg).store =
      saveSession env.stringify store appId userData env.userToken (some rid) ∧
    (initiateChat env store st appId channelId cfg).store.lastAppId = some appId ∧
    (initiateChat env store st appId channelId cfg).store.lastUserData =
      some (env.stringify userData) ∧
    (initiateChat env store st appId channelId cfg).fresh.sessionsSaved =
      [(appId, userData, env.userToken, some rid)] ∧
    (initiateChat env store st appId channelId cfg).st.isLoggedIn = true ∧
    (initiateChat env store st appId channelId cfg).st.currentUser = some userData ∧
    (initiateChat env store st appId channelId cfg).st.roomId = some rid := by
  have hsf : ¬ env.setUserOk = false := by simp [hSetUser]
  have hupd : ∀ st1 : SMState, updateRoomInfo env st1 (some rid) = Except.error (st1, []) := by
    intro st1
    simp [updateRoomInfo, hLogged, hRoomErr]
  simp only [initiateChat, hNoSess, hNonce, hApi, hVerify, sessionUsable,
    Bool.false_eq_true, if_false]
  rw [if_neg hsf, hNum, hupd]
  refine ⟨rfl, rfl, ?_, ?_, rfl, rfl, rfl, rfl⟩
  · cases h : truthyInt (some rid) <;> simp [saveSession, h]
  · cases h : truthyInt (some rid) <;> simp [saveSession, h]

/-- Closed instance of initiateChat_no_rollback: every step up to the save
succeeds, the room fetch then rejects, and the tuple and logged-in state
survive the rejection. -/
theorem initiateChat_no_rollback_witness :
    (initiateChat envHydrateFail ({} : StorageState) initSMState "x" none cfgFix).outcome =
      ChatOutcome.stepError ∧
    (initiateChat envHydrateFail ({} : StorageState) initSMState "x" none cfgFix).store =
      saveSession envHydrateFail.stringify {} "x" userFix envHydrateFail.userToken (some 9) ∧
    (initiateChat envHydrateFail ({} : StorageState) initSMState "x" none cfgFix).store.lastAppId =
      some "x" ∧
    (initiateChat envHydrateFail ({} : StorageState) initSMState "x" none cfgFix).store.lastUserData =
      some (envHydrateFail.stringify userFix) ∧
    (initiateChat envHydrateFail ({} : StorageState) initSMState "x" none cfgFix).fresh.sessionsSaved =
      [("x", userFix, envHydrateFail.userToken, some 9)] ∧
    (initiateChat envHydrateFail ({} : StorageState) initSMState "x" none cfgFix).st.isLoggedIn =
      true ∧
    (initiateChat envHydrateFail ({} : StorageState) initSMState "x" none cfgFix).st.currentUser =
      some userFix ∧
    (initiateChat envHydrateFail ({} : StorageState) initSMState "x" none cfgFix).st.roomId =
      some 9 :=
  initiateChat_no_rollback envHydrateFail {} initSMState "x" none cfgFix
    "NONCE" { identity_token := "IT", room_id := Js.num 9 } userFix 9
    rfl rfl rfl rfl rfl rfl rfl rfl

/-- C1: on a fully populated stored tuple whose user blob carries the `user`
sub-record read by the line-389 log (so that read does not throw) and whose
room fetch succeeds with a room, tryRestoreSession follows the restoration
decision table exactly: room not resolved - restore and return the stored
user and room id; resolved and the policy lookup sessional - refuse and
return null; resolved and the policy not sessional, or resolved and the
policy lookup rejected - restore; a rejected policy lookup is absorbed by
shouldCreateNewSession as "not sessional" and never propagates to the
caller. -/
theorem tryRestoreSession_decision_table (env : SdkEnv) (store : StorageState) (st : SMState)
    (appId : String) (sess : StoredSession) (rid : Int) (room : Room)
    (msgs : List Message) (st' : SMState) (evs : List Event)
    (hSess : getSession env.parse store appId = some sess)
    (hUser : jsTruthy sess.user = true)
    (hTok : sess.token ≠ "")
    (hRid : truthyInt sess.roomId = some rid)
    (hUU : jsAccessThrows (jsField sess.user "user") = false)
    (hAuth : env.setUserOk = true)
    (hRoom : updateRoomInfo env st sess.roomId = Except.ok ((some room, msgs), st', evs)) :
    (checkIfRoomResolved env.parse st' = false →
      tryRestoreSession env store st appId =
        (some (sess.user, sess.roomId),
          { st' with currentUser := some sess.user, roomId := sess.roomId, isLoggedIn := true },
          evs ++ [Event.stateChanged, Event.chatRestored sess.user sess.roomId])) ∧
    (checkIfRoomResolved env.parse st' = true →
      shouldCreateNewSession env.policyResult = true →
      tryRestoreSession env store st appId = (none, st', evs)) ∧
    (checkIfRoomResolved env.parse st' = true →
      shouldCreateNewSession env.policyResult = false →
      tryRestoreSession env store st appId =
        (some (sess.user, sess.roomId),
          { st' with currentUser := some sess.user, roomId := sess.roomId, isLoggedIn := true },
          evs ++ [Event.stateChanged, Event.chatRestored sess.user sess.roomId])) ∧
    (env.policyResult = Except.error () → shouldCreateNewSession env.policyResult = false) := by
  have hne : ¬ (jsTruthy sess.user = false ∨ sess.token = "" ∨ truthyInt sess.roomId = none) := by
    rintro (h | h | h)
    · rw [hUser] at h
      exact absurd h (by simp)
    · exact hTok h
    · rw [hRid] at h
      exact absurd h (by simp)
  have hsf : ¬ env.setUserOk = false := by simp [hAuth]
  have huu : ¬ jsAccessThrows (jsField sess.user "user") = true := by simp [hUU]
  have e : tryRestoreSession env store st appId =
      (if checkIfRoomResolved env.parse st' && shouldCreateNewSession env.policyResult then
        (none, st', evs)
      else
        (some (sess.user, sess.roomId),
          { st' with currentUser := some sess.user, roomId := sess.roomId, isLoggedIn := true },
          evs ++ [Event.stateChanged, Event.chatRestored sess.user sess.roomId])) := by
    unfold tryRestoreSession
    rw [hSess]
    dsimp only
    rw [if_neg hne, if_neg huu, if_neg hsf, hRoom]
  refine ⟨?_, ?_, ?_, ?_⟩
  · intro hres
    rw [e]
    simp [hres]
  · intro hres hpol
    rw [e]
    simp [hres, hpol]
  · intro hres hpol
    rw [e]
    simp [hres, hpol]
  · intro hp
    simp [shouldCreateNewSession, hp]

/-- Closed instance of tryRestoreSession_decision_table: the fixture tuple
with an unresolved room restores and returns the stored user and room id. -/
theorem tryRestoreSession_decision_table_witness :
    tryRestoreSession envFix storeFix initSMState "x" =
      (some (sessFix.user, sessFix.roomId),
        { initSMState with
            room := some roomFix, subtitle := some "",
            currentUser := some sessFix.user, roomId := sessFix.roomId, isLoggedIn := true },
        [Event.stateChanged, Event.stateChanged] ++
          [Event.stateChanged, Event.chatRestored sessFix.user sessFix.roomId]) :=
  (tryRestoreSession_decision_table envFix storeFix initSMState "x" sessFix 42 roomFix []
      { initSMState with room := some roomFix, subtitle := some "" }
      [Event.stateChanged, Event.stateChanged]
      rfl rfl (by decide) rfl rfl rfl rfl).1 rfl
